import Mathlib

/-!
Verification of the CXL-SpecKV host engine against its natural-language
specification.  The C++ sources are shallowly embedded: machine floats are
modelled as exact rationals, signed 8-bit machine integers as integers with
explicit two's-complement wrap, and 64-bit unsigned arithmetic as naturals
with explicit reduction modulo 2^64 where the source can overflow.
-/

namespace CXLSpecKV

/-! ## Compression engine (src/src/fpga_engine/cache_engine.cpp)

The four-stage pipeline: scale, INT8 quantize, delta encode, run-length
encode, and its inverse.  Floats are modelled as rationals; the narrowing
conversion to int8_t in the source is modelled as two's-complement wrap. -/

/-- Two's-complement narrowing of an integer to the signed 8-bit range
[-128, 127], the de-facto behaviour of the int8_t narrowing conversions in
the source. -/
def wrap8 (n : ℤ) : ℤ := (n + 128) % 256 - 128

/-- Saturating clamp into the signed 8-bit range, as written in
quantize_to_int8 via std::max / std::min (applied there to an already
narrowed value). -/
def clampInt8 (n : ℤ) : ℤ := max (-128) (min 127 n)

/-- Reinterpretation of a signed 8-bit value as an unsigned byte, the
static_cast of int8_t to uint8_t used by run_length_encode. -/
def toByte (n : ℤ) : ℤ := n % 256

/-- Rounding half away from zero, the semantics of std::round. -/
def roundHalfAwayFromZero (q : ℚ) : ℤ :=
  if 0 ≤ q then ⌊q + 1/2⌋ else -⌊-q + 1/2⌋

/-- Stage 1 of the pipeline (FPGACacheEngine::compute_scale_factor):
scale = max |x| / 127, or 1 when the input is all zero. -/
def compute_scale_factor (data : List ℚ) : ℚ :=
  let max_val := data.foldl (fun m v => max m |v|) 0
  if 0 < max_val then max_val / 127 else 1

/-- Stage 2 (FPGACacheEngine::quantize_to_int8).  The source computes
round(scaled * 127), narrows the float to int8_t (wrap), and only then
clamps the already narrowed value with std::max / std::min. -/
def quantize_to_int8 (data : List ℚ) (scale : ℚ) : List ℤ :=
  data.map fun x =>
    let scaled := x / scale
    let quantized_val := wrap8 (roundHalfAwayFromZero (scaled * 127))
    clampInt8 quantized_val

/-- Modelled from the spec: the stage-2 quantizer as the specification
writes it, clamp(round((x / s) * 127), -128, 127), saturating before any
narrowing.  Used only to compare against quantize_to_int8. -/
def quantize_spec_clamp (data : List ℚ) (scale : ℚ) : List ℤ :=
  data.map fun x => clampInt8 (roundHalfAwayFromZero (x / scale * 127))

/-- Tail of FPGACacheEngine::delta_encode: differences in int8_t with
wrap-around. -/
def delta_encode_aux : ℤ → List ℤ → List ℤ
  | _, [] => []
  | prev, x :: rest => wrap8 (x - prev) :: delta_encode_aux x rest

/-- Stage 3 (FPGACacheEngine::delta_encode): first element unchanged, then
successive differences in signed 8-bit. -/
def delta_encode : List ℤ → List ℤ
  | [] => []
  | x :: rest => x :: delta_encode_aux x rest

/-- Tail of FPGACacheEngine::delta_decode: running prefix sum in int8_t. -/
def delta_decode_aux : ℤ → List ℤ → List ℤ
  | _, [] => []
  | prev, d :: rest =>
    let v := wrap8 (prev + d)
    v :: delta_decode_aux v rest

/-- Inverse of stage 3 (FPGACacheEngine::delta_decode). -/
def delta_decode : List ℤ → List ℤ
  | [] => []
  | d :: rest => d :: delta_decode_aux d rest

/-- Loop of FPGACacheEngine::run_length_encode, carrying the current run
value and its count; a run is flushed when the value changes or the count
reaches 255, and the final run is always flushed. -/
def run_length_encode_aux : ℤ → ℕ → List ℤ → List ℤ
  | cur, count, [] => [toByte cur, (count : ℤ)]
  | cur, count, x :: rest =>
    if x = cur ∧ count < 255 then run_length_encode_aux cur (count + 1) rest
    else toByte cur :: (count : ℤ) :: run_length_encode_aux x 1 rest

/-- Stage 4 (FPGACacheEngine::run_length_encode): (value, count) byte
pairs; empty input yields empty output. -/
def run_length_encode : List ℤ → List ℤ
  | [] => []
  | x :: rest => run_length_encode_aux x 1 rest

/-- Inverse of stage 4 (FPGACacheEngine::run_length_decode): consume byte
pairs, reinterpreting the value byte as int8_t and replicating it count
times; a trailing unpaired byte is dropped. -/
def run_length_decode : List ℤ → List ℤ
  | v :: c :: rest => List.replicate c.toNat (wrap8 v) ++ run_length_decode rest
  | _ => []

/-- Inverse of stages 1-2 (FPGACacheEngine::dequantize_from_int8):
x = (q / 127) * scale. -/
def dequantize_from_int8 (data : List ℤ) (scale : ℚ) : List ℚ :=
  data.map fun q => ((q : ℚ) / 127) * scale

/-- Output record of FPGACacheEngine::compress (performance statistics,
which the contract excludes, are not modelled). -/
structure CompressedData where
  scale_factor : ℚ
  rle_data : List ℤ
  original_size : ℕ
  compressed_size : ℕ
deriving DecidableEq, Repr

/-- FPGACacheEngine::compress: scale, quantize, delta-encode, run-length
encode.  num_tokens, hidden_dim and layer_id are accepted but, as in the
source, do not influence the computation. -/
def compress (kv_data : List ℚ) (num_tokens hidden_dim layer_id : ℕ) : CompressedData :=
  let scale := compute_scale_factor kv_data
  let quantized := quantize_to_int8 kv_data scale
  let delta_encoded := delta_encode quantized
  let rle_encoded := run_length_encode delta_encoded
  { scale_factor := scale
    rle_data := rle_encoded
    original_size := kv_data.length * 4
    compressed_size := rle_encoded.length }

/-- FPGACacheEngine::decompress: run-length decode, delta decode,
dequantize. -/
def decompress (compressed : CompressedData) (num_tokens hidden_dim : ℕ) : List ℚ :=
  dequantize_from_int8 (delta_decode (run_length_decode compressed.rle_data))
    compressed.scale_factor

/-! ### Run-length round trip -/

lemma run_length_decode_cons (v c : ℤ) (rest : List ℤ) :
    run_length_decode (v :: c :: rest) =
      List.replicate c.toNat (wrap8 v) ++ run_length_decode rest := by
  rfl

lemma wrap8_toByte {n : ℤ} (h1 : -128 ≤ n) (h2 : n ≤ 127) :
    wrap8 (toByte n) = n := by
  unfold wrap8 toByte
  omega

lemma run_length_encode_aux_roundtrip (rest : List ℤ) :
    ∀ (cur : ℤ) (count : ℕ), -128 ≤ cur → cur ≤ 127 → count ≤ 255 →
      (∀ v ∈ rest, -128 ≤ v ∧ v ≤ 127) →
      run_length_decode (run_length_encode_aux cur count rest) =
        List.replicate count cur ++ rest := by
  induction rest with
  | nil =>
    intro cur count h1 h2 _ _
    simp [run_length_encode_aux, run_length_decode_cons, run_length_decode,
      wrap8_toByte h1 h2]
  | cons x rest ih =>
    intro cur count h1 h2 hcount hmem
    have hx : -128 ≤ x ∧ x ≤ 127 := hmem x (List.mem_cons_self x rest)
    have hrest : ∀ v ∈ rest, -128 ≤ v ∧ v ≤ 127 :=
      fun v hv => hmem v (List.mem_cons_of_mem x hv)
    rw [run_length_encode_aux]
    split
    · next hcond =>
      obtain ⟨hxcur, hlt⟩ := hcond
      rw [ih cur (count + 1) h1 h2 (by omega) hrest]
      subst hxcur
      rw [List.replicate_succ' count x, List.append_assoc]
      rfl
    · rw [run_length_decode_cons, ih x 1 hx.1 hx.2 (by omega) hrest,
        wrap8_toByte h1 h2]
      rfl

/-- C9: run-length decoding the run-length encoding of a signed 8-bit
sequence yields it back exactly; the empty sequence encodes to the empty
byte string. -/
theorem C9_rle_roundtrip :
    (∀ s : List ℤ, (∀ v ∈ s, -128 ≤ v ∧ v ≤ 127) →
       run_length_decode (run_length_encode s) = s) ∧
    run_length_encode [] = [] := by
  constructor
  · intro s hs
    match s with
    | [] => rfl
    | x :: rest =>
      have hx : -128 ≤ x ∧ x ≤ 127 := hs x (List.mem_cons_self x rest)
      have hrest : ∀ v ∈ rest, -128 ≤ v ∧ v ≤ 127 :=
        fun v hv => hs v (List.mem_cons_of_mem x hv)
      rw [run_length_encode,
        run_length_encode_aux_roundtrip rest x 1 hx.1 hx.2 (by omega) hrest]
      rfl
  · rfl

/-- Witness for C9 at the concrete sequence [3, 3, 3, -5]. -/
theorem C9_rle_roundtrip_witness :
    run_length_decode (run_length_encode [(3 : ℤ), 3, 3, -5]) = [3, 3, 3, -5] :=
  C9_rle_roundtrip.1 [3, 3, 3, -5] (by decide)

lemma compute_scale_factor_one : compute_scale_factor [(1 : ℚ)] = 1 / 127 := by
  norm_num [compute_scale_factor]

lemma round_at_one : roundHalfAwayFromZero ((1 : ℚ) / (1 / 127) * 127) = 16129 := by
  rw [roundHalfAwayFromZero, if_pos (by norm_num)]
  norm_num

lemma quantize_code_at_one : quantize_to_int8 [(1 : ℚ)] (1 / 127) = [1] := by
  simp only [quantize_to_int8, List.map]
  rw [round_at_one]
  decide

lemma quantize_spec_at_one : quantize_spec_clamp [(1 : ℚ)] (1 / 127) = [127] := by
  simp only [quantize_spec_clamp, List.map]
  rw [round_at_one]
  decide

lemma compress_one :
    compress [(1 : ℚ)] 1 1 0 =
      { scale_factor := 1 / 127, rle_data := [1, 1],
        original_size := 4, compressed_size := 2 } := by
  simp only [compress, compute_scale_factor_one, quantize_code_at_one,
    CompressedData.mk.injEq]
  refine ⟨trivial, by decide, by decide, by decide⟩

/-- C1: the compression round trip at the failing input x = [1.0].  The
length is preserved, but decompress(compress(x)) evaluates to [1/16129]:
the quantizer computes round((1/(1/127)) * 127) = 16129, which the int8_t
narrowing wraps to 1, so the element error is 1 - 1/16129, far above the
claimed bound max|x| / 127 = 1/127. -/
theorem C1_roundtrip_fails_at_one :
    (decompress (compress [(1 : ℚ)] 1 1 0) 1 1).length = [(1 : ℚ)].length ∧
    decompress (compress [(1 : ℚ)] 1 1 0) 1 1 = [(1 : ℚ) / 16129] ∧
    ¬ |(1 : ℚ) - 1 / 16129| ≤ 1 / 127 := by
  have hdec : decompress (compress [(1 : ℚ)] 1 1 0) 1 1 = [(1 : ℚ) / 16129] := by
    rw [compress_one]
    show dequantize_from_int8 (delta_decode (run_length_decode [1, 1])) (1 / 127) =
      [(1 : ℚ) / 16129]
    have hrld : run_length_decode [(1 : ℤ), 1] = [1] := by decide
    rw [hrld]
    show dequantize_from_int8 [1] (1 / 127) = [(1 : ℚ) / 16129]
    simp only [dequantize_from_int8, List.map]
    norm_num
  refine ⟨by rw [hdec]; rfl, hdec, ?_⟩
  rw [abs_of_pos (by norm_num : (0 : ℚ) < 1 - 1 / 16129)]
  norm_num

/-- C7: at input [1.0] with the stage-1 scale 1/127, the rounded scaled
value is 16129; the source's quantizer narrows it to 1 (two's-complement
wrap) before its clamp, while the specified clamp(round((x/s)*127), -128,
127) saturates to 127. -/
theorem C7_quantize_wraps_not_saturates :
    quantize_to_int8 [(1 : ℚ)] (compute_scale_factor [(1 : ℚ)]) = [1] ∧
    quantize_spec_clamp [(1 : ℚ)] (compute_scale_factor [(1 : ℚ)]) = [127] ∧
    ((1 : ℤ) : ℤ) ≠ 127 := by
  rw [compute_scale_factor_one, quantize_code_at_one, quantize_spec_at_one]
  refine ⟨rfl, rfl, by decide⟩

/-! ## Coherence manager (src/src/cxl_memory/coherence_manager.cpp)

Shadow MESI directory over cache-line-aligned addresses.  The directory
map is an association list keyed by aligned address; the transport is
reachable iff the driver pointer is non-null (wait_for_fpga_completion
always reports success in the source).  Wall-clock access timestamps are
observability-only and not modelled; the pending_ops_ counter is
incremented and decremented around each (immediately completing) send and
so has no observable effect. -/

/-- Width of the uint64_t / size_t machine words in the source. -/
def U64 : ℕ := 2 ^ 64

inductive CoherenceState
  | INVALID
  | SHARED
  | EXCLUSIVE
  | MODIFIED
deriving DecidableEq, Repr

/-- CoherenceManager::MemoryTier. -/
inductive CohMemoryTier
  | L1_GPU
  | L2_PREFETCH
  | L3_CXL
deriving DecidableEq, Repr

inductive CoherenceOp
  | READ
  | WRITE
  | INVALIDATE
  | WRITEBACK
  | FLUSH
deriving DecidableEq, Repr

/-- CoherenceManager::DirectoryEntry with its constructor defaults. -/
structure DirectoryEntry where
  cache_line_addr : ℕ := 0
  state : CoherenceState := .INVALID
  tier : CohMemoryTier := .L3_CXL
  access_count : ℕ := 0
  pending_operation : Bool := false
deriving DecidableEq, Repr

/-- CoherenceManager::Statistics (hit_rate is derived and not stored). -/
structure CoherenceStatistics where
  total_reads : ℕ := 0
  total_writes : ℕ := 0
  coherence_ops : ℕ := 0
  invalidations_sent : ℕ := 0
  writebacks_performed : ℕ := 0
  directory_hits : ℕ := 0
  directory_misses : ℕ := 0
deriving DecidableEq, Repr

/-- Host-side state of a CoherenceManager. -/
structure CoherenceManager where
  driver_ok : Bool
  cache_line_size : ℕ := 64
  directory : List (ℕ × DirectoryEntry) := []
  stats : CoherenceStatistics := {}
deriving DecidableEq, Repr

/-- Replace the binding of key a (or append it), mirroring operator[]
assignment on the unordered_map directory. -/
def dirSet (d : List (ℕ × DirectoryEntry)) (a : ℕ) (e : DirectoryEntry) :
    List (ℕ × DirectoryEntry) :=
  if (d.lookup a).isSome then d.map (fun p => if p.1 = a then (a, e) else p)
  else d ++ [(a, e)]

/-- CoherenceManager::align_to_cache_line: addr & ~(cache_line_size - 1)
in 64-bit arithmetic. -/
def align_to_cache_line (cache_line_size addr : ℕ) : ℕ :=
  Nat.land addr (U64 - cache_line_size)

/-- CoherenceManager::get_or_create_entry: the existing entry, or a fresh
default entry carrying the aligned address. -/
def get_or_create_entry (d : List (ℕ × DirectoryEntry)) (a : ℕ) : DirectoryEntry :=
  match d.lookup a with
  | some e => e
  | none => { cache_line_addr := a }

/-- CoherenceManager::update_statistics. -/
def update_statistics (op : CoherenceOp) (hit : Bool) (s : CoherenceStatistics) :
    CoherenceStatistics :=
  match op with
  | .READ =>
    { s with total_reads := s.total_reads + 1
             directory_hits := if hit then s.directory_hits + 1 else s.directory_hits
             directory_misses := if hit then s.directory_misses else s.directory_misses + 1 }
  | .WRITE =>
    { s with total_writes := s.total_writes + 1
             directory_hits := if hit then s.directory_hits + 1 else s.directory_hits
             directory_misses := if hit then s.directory_misses else s.directory_misses + 1 }
  | _ => { s with coherence_ops := s.coherence_ops + 1 }

/-- CoherenceManager::send_coherence_op_to_fpga: fails iff the driver is
null; on the success path wait_for_fpga_completion returns true and
update_statistics(op, true) is invoked again. -/
def send_coherence_op_to_fpga (op : CoherenceOp) (m : CoherenceManager) :
    Bool × CoherenceManager :=
  if m.driver_ok then (true, { m with stats := update_statistics op true m.stats })
  else (false, m)

/-- Miss path of CoherenceManager::request_read (the code after the
directory-hit early return). -/
def request_read_miss (a : ℕ) (m : CoherenceManager) : Bool × CoherenceManager :=
  let m1 := { m with stats := update_statistics .READ false m.stats }
  let r := send_coherence_op_to_fpga .READ m1
  if r.1 then
    let e := get_or_create_entry r.2.directory a
    let e2 := { e with state := .SHARED, tier := .L1_GPU, access_count := 1 }
    (true, { r.2 with directory := dirSet r.2.directory a e2 })
  else (false, r.2)

/-- CoherenceManager::request_read. -/
def request_read (addr : ℕ) (m : CoherenceManager) : Bool × CoherenceManager :=
  let a := align_to_cache_line m.cache_line_size addr
  match m.directory.lookup a with
  | some e =>
    if e.state = .SHARED ∨ e.state = .EXCLUSIVE ∨ e.state = .MODIFIED then
      (true, { m with
        stats := update_statistics .READ true m.stats
        directory := dirSet m.directory a { e with access_count := e.access_count + 1 } })
    else request_read_miss a m
  | none => request_read_miss a m

/-- CoherenceManager::request_write. -/
def request_write (addr : ℕ) (m : CoherenceManager) : Bool × CoherenceManager :=
  let a := align_to_cache_line m.cache_line_size addr
  let entry := m.directory.lookup a
  let m1 : CoherenceManager :=
    match entry with
    | some e =>
      if e.state = CoherenceState.SHARED then
        let s1 := update_statistics .INVALIDATE false m.stats
        { m with stats := { s1 with invalidations_sent := s1.invalidations_sent + 1 } }
      else m
    | none => m
  let m2 := { m1 with stats := update_statistics .WRITE entry.isSome m1.stats }
  let r := send_coherence_op_to_fpga .WRITE m2
  if r.1 then
    let e := get_or_create_entry r.2.directory a
    let e2 := { e with state := .MODIFIED, tier := .L1_GPU, access_count := e.access_count + 1 }
    (true, { r.2 with directory := dirSet r.2.directory a e2 })
  else (false, r.2)

/-- CoherenceManager::invalidate.  Note that the entry is marked INVALID
before the transport is invoked. -/
def invalidate (addr : ℕ) (m : CoherenceManager) : Bool × CoherenceManager :=
  let a := align_to_cache_line m.cache_line_size addr
  match m.directory.lookup a with
  | none => (true, m)
  | some e =>
    let m1 : CoherenceManager :=
      if e.state = CoherenceState.MODIFIED then
        { m with stats := { m.stats with writebacks_performed := m.stats.writebacks_performed + 1 } }
      else m
    let m2 := { m1 with directory := dirSet m1.directory a { e with state := .INVALID } }
    let r := send_coherence_op_to_fpga .INVALIDATE m2
    let s2 := { r.2.stats with invalidations_sent := r.2.stats.invalidations_sent + 1 }
    (r.1, { r.2 with stats := s2 })

/-- CoherenceManager::writeback. -/
def writeback (addr : ℕ) (m : CoherenceManager) : Bool × CoherenceManager :=
  let a := align_to_cache_line m.cache_line_size addr
  match m.directory.lookup a with
  | none => (true, m)
  | some e =>
    if e.state = CoherenceState.MODIFIED then
      let r := send_coherence_op_to_fpga .WRITEBACK m
      if r.1 then
        let e2 := { e with state := CoherenceState.SHARED, tier := CohMemoryTier.L3_CXL }
        let s2 := { r.2.stats with writebacks_performed := r.2.stats.writebacks_performed + 1 }
        (true, { r.2 with directory := dirSet r.2.directory a e2, stats := s2 })
      else (false, r.2)
    else (true, m)

/-- CoherenceManager::get_state. -/
def get_state (addr : ℕ) (m : CoherenceManager) : CoherenceState :=
  match m.directory.lookup (align_to_cache_line m.cache_line_size addr) with
  | some e => e.state
  | none => .INVALID

/-- CoherenceManager::get_tier. -/
def get_tier (addr : ℕ) (m : CoherenceManager) : CohMemoryTier :=
  match m.directory.lookup (align_to_cache_line m.cache_line_size addr) with
  | some e => e.tier
  | none => .L3_CXL

/-- C2: the read, write, writeback, invalidate cycle on a fresh 64-byte
aligned address with a working transport.  The observed directory states
are Shared, Modified, Shared, Invalid as claimed, but the statistics end
at total_reads = 2, total_writes = 2, writebacks_performed = 1,
invalidations_sent = 2 rather than 1, 1, 1, 1: each transport send runs
update_statistics a second time, and the Shared-to-Modified write upgrade
counts an invalidation besides the explicit invalidate. -/
theorem C2_mesi_cycle_eval :
    let m0 : CoherenceManager := { driver_ok := true }
    let r1 := request_read 64 m0
    let r2 := request_write 64 r1.2
    let r3 := writeback 64 r2.2
    let r4 := invalidate 64 r3.2
    r1.1 = true ∧ r2.1 = true ∧ r3.1 = true ∧ r4.1 = true ∧
    get_state 64 r1.2 = .SHARED ∧ get_state 64 r2.2 = .MODIFIED ∧
    get_state 64 r3.2 = .SHARED ∧ get_state 64 r4.2 = .INVALID ∧
    r4.2.stats.total_reads = 2 ∧ r4.2.stats.total_writes = 2 ∧
    r4.2.stats.writebacks_performed = 1 ∧ r4.2.stats.invalidations_sent = 2 ∧
    ¬(r4.2.stats.total_reads = 1 ∧ r4.2.stats.total_writes = 1 ∧
      r4.2.stats.invalidations_sent = 1) := by
  decide

/-- Concrete manager used for the C4 theorems: transport unreachable (null
driver), one Shared line at address 64. -/
def c4FailingManager : CoherenceManager :=
  { driver_ok := false
    directory := [(64, { cache_line_addr := 64, state := .SHARED, tier := .L1_GPU })] }

/-- C4 counterexample: with the transport failing (null driver) and a
Shared entry present, invalidate returns false yet the directory entry has
already been flipped to Invalid, so the failed operation did not leave the
directory unchanged. -/
theorem C4_invalidate_mutates_on_failure :
    (invalidate 64 c4FailingManager).1 = false ∧
    get_state 64 c4FailingManager = .SHARED ∧
    get_state 64 (invalidate 64 c4FailingManager).2 = .INVALID := by
  decide

/-- C4 (amended): when the transport fails, read (on a line that misses),
write, and writeback (on a Modified line) return false and leave the
directory - every line's state and tier - unchanged, and writeback on a
line that is absent returns true with the directory unchanged; invalidate,
by contrast, marks the present line Invalid before invoking the transport,
so on transport failure it returns false with the entry's state already
set to Invalid (its tier untouched). -/
theorem C4_transport_failure_amended (m : CoherenceManager) (addr : ℕ)
    (hfail : m.driver_ok = false) :
    (m.directory.lookup (align_to_cache_line m.cache_line_size addr) = none →
      (request_read addr m).1 = false ∧ (request_read addr m).2.directory = m.directory) ∧
    (∀ e, m.directory.lookup (align_to_cache_line m.cache_line_size addr) = some e →
      e.state = CoherenceState.INVALID →
      (request_read addr m).1 = false ∧ (request_read addr m).2.directory = m.directory) ∧
    ((request_write addr m).1 = false ∧ (request_write addr m).2.directory = m.directory) ∧
    (∀ e, m.directory.lookup (align_to_cache_line m.cache_line_size addr) = some e →
      (e.state = CoherenceState.MODIFIED → (writeback addr m).1 = false) ∧
      (writeback addr m).2.directory = m.directory) ∧
    (m.directory.lookup (align_to_cache_line m.cache_line_size addr) = none →
      (writeback addr m).1 = true ∧ (writeback addr m).2.directory = m.directory) ∧
    (∀ e, m.directory.lookup (align_to_cache_line m.cache_line_size addr) = some e →
      (invalidate addr m).1 = false ∧
      (invalidate addr m).2.directory =
        dirSet m.directory (align_to_cache_line m.cache_line_size addr)
          { e with state := CoherenceState.INVALID }) := by
  refine ⟨?_, ?_, ?_, ?_, ?_, ?_⟩
  · intro hnone
    simp [request_read, hnone, request_read_miss, send_coherence_op_to_fpga, hfail]
  · intro e he hinv
    simp [request_read, he, hinv, request_read_miss, send_coherence_op_to_fpga, hfail]
  · cases he : m.directory.lookup (align_to_cache_line m.cache_line_size addr) with
    | none => simp [request_write, he, send_coherence_op_to_fpga, hfail]
    | some e =>
      by_cases hs : e.state = CoherenceState.SHARED <;>
        simp [request_write, he, hs, send_coherence_op_to_fpga, hfail]
  · intro e he
    by_cases hmod : e.state = CoherenceState.MODIFIED <;>
      simp [writeback, he, hmod, send_coherence_op_to_fpga, hfail]
  · intro hnone
    simp [writeback, hnone]
  · intro e he
    by_cases hmod : e.state = CoherenceState.MODIFIED <;>
      simp [invalidate, he, hmod, send_coherence_op_to_fpga, hfail]

/-- Witness for C4 (amended) at the concrete failing manager: the write
conjunct at address 64. -/
theorem C4_transport_failure_amended_witness :
    (request_write 64 c4FailingManager).1 = false ∧
    (request_write 64 c4FailingManager).2.directory = c4FailingManager.directory :=
  (C4_transport_failure_amended c4FailingManager 64 rfl).2.2.1

/-! ## Tiered page allocator (src/src/cxl_memory/cxl_memory_manager.cpp)

The page table is an association list keyed by page-aligned virtual
address; uint64_t / size_t arithmetic is reduced modulo 2^64 where the
source can overflow.  Wall-clock last_access_time stamps are
observability-only and not modelled. -/

/-- The allocator's MemoryTier enum. -/
inductive MemoryTier
  | L1_GPU_LOCAL
  | L2_PREFETCH
  | L3_CXL_POOL
deriving DecidableEq, Repr

inductive PageState
  | INVALID
  | SHARED
  | EXCLUSIVE
  | MODIFIED
deriving DecidableEq, Repr

/-- MemoryPage (last_access_time omitted: wall-clock observability
only). -/
structure MemoryPage where
  virtual_addr : ℕ
  physical_addr : ℕ
  tier : MemoryTier
  state : PageState
  access_count : ℕ
  is_hot : Bool
  layer_id : ℕ
deriving DecidableEq, Repr

/-- CXLMemoryManager::Statistics (derived hit rates not stored). -/
structure MMStatistics where
  l1_hits : ℕ := 0
  l1_misses : ℕ := 0
  l2_hits : ℕ := 0
  l2_misses : ℕ := 0
  l3_accesses : ℕ := 0
  migrations_l1_to_l3 : ℕ := 0
  migrations_l3_to_l1 : ℕ := 0
deriving DecidableEq, Repr

/-- State of a CXLMemoryManager, with the constructor's cursor bases. -/
structure CXLMemoryManager where
  l1_size_bytes : ℕ
  l2_size_bytes : ℕ
  l3_size_bytes : ℕ
  page_size : ℕ
  page_table : List (ℕ × MemoryPage) := []
  l1_pages : List ℕ := []
  l2_pages : List ℕ := []
  l3_pages : List ℕ := []
  next_virtual_addr : ℕ := 0x100000000
  next_physical_addr_l1 : ℕ := 0x8000000000
  next_physical_addr_l2 : ℕ := 0x10000000000
  next_physical_addr_l3 : ℕ := 0x20000000000
  l1_lru_list : List ℕ := []
  stats : MMStatistics := {}
deriving DecidableEq, Repr

/-- The CXLMemoryManager constructor: tier capacities in GiB, sizes
computed in size_t. -/
def CXLMemoryManager.init (l1_size_gb l2_size_gb l3_size_gb page_size : ℕ) :
    CXLMemoryManager :=
  { l1_size_bytes := (l1_size_gb * 1024 * 1024 * 1024) % U64
    l2_size_bytes := (l2_size_gb * 1024 * 1024 * 1024) % U64
    l3_size_bytes := (l3_size_gb * 1024 * 1024 * 1024) % U64
    page_size := page_size }

/-- Replace the binding of key a (or append it), mirroring operator[]
assignment on the unordered_map page table. -/
def ptSet (pt : List (ℕ × MemoryPage)) (a : ℕ) (p : MemoryPage) :
    List (ℕ × MemoryPage) :=
  if (pt.lookup a).isSome then pt.map (fun q => if q.1 = a then (a, p) else q)
  else pt ++ [(a, p)]

/-- The erase(remove(...)) idiom on the tier vectors: drop every
occurrence of the value. -/
def listErase (l : List ℕ) (v : ℕ) : List ℕ := l.filter (fun x => x ≠ v)

/-- CXLMemoryManager::get_page: look up the page containing the address
(aligned down to the page boundary). -/
def get_page (m : CXLMemoryManager) (virtual_addr : ℕ) : Option MemoryPage :=
  m.page_table.lookup (virtual_addr / m.page_size * m.page_size)

/-- Number of whole pages covered by a request, as computed in size_t:
(size_bytes + page_size - 1) / page_size. -/
def required_pages (page_size size_bytes : ℕ) : ℕ :=
  ((size_bytes + page_size - 1) % U64) / page_size

/-- Page-rounded byte size of a request: num_pages * page_size in
size_t. -/
def required_bytes (page_size size_bytes : ℕ) : ℕ :=
  (required_pages page_size size_bytes * page_size) % U64

/-- CXLMemoryManager::can_fit_in_tier: used is the tier list length times
the page size; fits iff used + size_bytes <= the configured capacity. -/
def can_fit_in_tier (m : CXLMemoryManager) (tier : MemoryTier) (size_bytes : ℕ) : Bool :=
  match tier with
  | .L1_GPU_LOCAL =>
    decide ((m.l1_pages.length * m.page_size % U64 + size_bytes) % U64 ≤ m.l1_size_bytes)
  | .L2_PREFETCH =>
    decide ((m.l2_pages.length * m.page_size % U64 + size_bytes) % U64 ≤ m.l2_size_bytes)
  | .L3_CXL_POOL =>
    decide ((m.l3_pages.length * m.page_size % U64 + size_bytes) % U64 ≤ m.l3_size_bytes)

/-- Fresh page-table entry created by the allocation loop: state
EXCLUSIVE, access_count 0, not hot. -/
def allocate_page (virtual_addr physical_addr : ℕ) (tier : MemoryTier) (layer_id : ℕ) :
    MemoryPage :=
  { virtual_addr := virtual_addr
    physical_addr := physical_addr
    tier := tier
    state := PageState.EXCLUSIVE
    access_count := 0
    is_hot := false
    layer_id := layer_id }

/-- CXLMemoryManager::allocate.  Rounds up to whole pages; when the
preferred tier is L1 and L1 cannot fit, falls back to L3 (the only
capacity check); bumps the chosen tier's physical cursor, records the base
virtual address in the tier list, creates one page-table entry per page,
and advances the virtual cursor.  The tier switch of the source is split
here into the cursor/list update (m1, physical_addr_base) followed by the
page-creation loop over the page table. -/
def allocate (m : CXLMemoryManager) (size_bytes layer_id : ℕ)
    (preferred_tier : MemoryTier) : ℕ × CXLMemoryManager :=
  let num_pages := required_pages m.page_size size_bytes
  let req := required_bytes m.page_size size_bytes
  let actual_tier :=
    if preferred_tier = MemoryTier.L1_GPU_LOCAL ∧
        can_fit_in_tier m MemoryTier.L1_GPU_LOCAL req = false
    then MemoryTier.L3_CXL_POOL else preferred_tier
  let virtual_addr := m.next_virtual_addr
  let physical_addr_base :=
    match actual_tier with
    | .L1_GPU_LOCAL => m.next_physical_addr_l1
    | .L2_PREFETCH => m.next_physical_addr_l2
    | .L3_CXL_POOL => m.next_physical_addr_l3
  let m1 : CXLMemoryManager :=
    match actual_tier with
    | .L1_GPU_LOCAL =>
      { m with next_physical_addr_l1 := (m.next_physical_addr_l1 + req) % U64
               l1_pages := m.l1_pages ++ [virtual_addr] }
    | .L2_PREFETCH =>
      { m with next_physical_addr_l2 := (m.next_physical_addr_l2 + req) % U64
               l2_pages := m.l2_pages ++ [virtual_addr] }
    | .L3_CXL_POOL =>
      { m with next_physical_addr_l3 := (m.next_physical_addr_l3 + req) % U64
               l3_pages := m.l3_pages ++ [virtual_addr] }
  let pt := (List.range num_pages).foldl
    (fun acc i =>
      ptSet acc ((virtual_addr + i * m.page_size) % U64)
        (allocate_page ((virtual_addr + i * m.page_size) % U64)
          ((physical_addr_base + i * m.page_size) % U64) actual_tier layer_id))
    m.page_table
  (virtual_addr, { m1 with page_table := pt
                           next_virtual_addr := (virtual_addr + req) % U64 })

/-- CXLMemoryManager::deallocate: only the page-table entry at the given
base address is consulted; its base is removed from the tier list (and,
for L1, the LRU list) and that single page-table entry is erased.  Unknown
bases are a no-op. -/
def deallocate (m : CXLMemoryManager) (virtual_addr : ℕ) : CXLMemoryManager :=
  match m.page_table.lookup virtual_addr with
  | none => m
  | some page =>
    let m1 : CXLMemoryManager :=
      match page.tier with
      | .L1_GPU_LOCAL =>
        { m with l1_pages := listErase m.l1_pages virtual_addr
                 l1_lru_list := listErase m.l1_lru_list virtual_addr }
      | .L2_PREFETCH => { m with l2_pages := listErase m.l2_pages virtual_addr }
      | .L3_CXL_POOL => { m with l3_pages := listErase m.l3_pages virtual_addr }
    { m1 with page_table := m1.page_table.filter (fun q => q.1 ≠ virtual_addr) }

/-- CXLMemoryManager::update_lru: remove the address from the L1 LRU list
if present, then append it at the most-recently-used end.  Invoked with
the raw (not page-aligned) address, exactly as in the source. -/
def update_lru (m : CXLMemoryManager) (virtual_addr : ℕ) : CXLMemoryManager :=
  { m with l1_lru_list := listErase m.l1_lru_list virtual_addr ++ [virtual_addr] }

/-- CXLMemoryManager::update_access_tracking: bump the page's access
count, classify a tier-specific hit counter, and call update_lru -
unconditionally, whatever the page's tier. -/
def update_access_tracking (m : CXLMemoryManager) (virtual_addr : ℕ) : CXLMemoryManager :=
  match get_page m virtual_addr with
  | none => m
  | some page =>
    let key := virtual_addr / m.page_size * m.page_size
    let p1 := { page with access_count := page.access_count + 1 }
    let m1 := { m with page_table := ptSet m.page_table key p1 }
    let m2 : CXLMemoryManager :=
      match page.tier with
      | .L1_GPU_LOCAL => { m1 with stats := { m1.stats with l1_hits := m1.stats.l1_hits + 1 } }
      | .L2_PREFETCH => { m1 with stats := { m1.stats with l2_hits := m1.stats.l2_hits + 1 } }
      | .L3_CXL_POOL => { m1 with stats := { m1.stats with l3_accesses := m1.stats.l3_accesses + 1 } }
    update_lru m2 virtual_addr

/-- CXLMemoryManager::demote_to_l3. -/
def demote_to_l3 (m : CXLMemoryManager) (virtual_addr : ℕ) : Bool × CXLMemoryManager :=
  match get_page m virtual_addr with
  | none => (false, m)
  | some page =>
    if page.tier = MemoryTier.L3_CXL_POOL then (false, m)
    else
      let key := virtual_addr / m.page_size * m.page_size
      let p1 := { page with tier := MemoryTier.L3_CXL_POOL }
      let m1 := { m with page_table := ptSet m.page_table key p1 }
      let m2 : CXLMemoryManager :=
        match page.tier with
        | .L1_GPU_LOCAL =>
          { m1 with l1_pages := listErase m1.l1_pages virtual_addr
                    l1_lru_list := listErase m1.l1_lru_list virtual_addr
                    stats := { m1.stats with migrations_l1_to_l3 := m1.stats.migrations_l1_to_l3 + 1 } }
        | .L2_PREFETCH => { m1 with l2_pages := listErase m1.l2_pages virtual_addr }
        | .L3_CXL_POOL => m1
      (true, { m2 with l3_pages := m2.l3_pages ++ [virtual_addr] })

/-- CXLMemoryManager::evict_l1_lru: pop the least-recently-used front of
the LRU list and demote it. -/
def evict_l1_lru (m : CXLMemoryManager) : CXLMemoryManager :=
  match m.l1_lru_list with
  | [] => m
  | lru :: rest => (demote_to_l3 { m with l1_lru_list := rest } lru).2

/-- CXLMemoryManager::promote_to_l1.  The source keeps a pointer into the
page table across the eviction, so the page is re-read after the (single,
non-recursive) eviction. -/
def promote_to_l1 (m : CXLMemoryManager) (virtual_addr : ℕ) : Bool × CXLMemoryManager :=
  match get_page m virtual_addr with
  | none => (false, m)
  | some page =>
    if page.tier = MemoryTier.L1_GPU_LOCAL then (false, m)
    else
      let m0 :=
        if can_fit_in_tier m MemoryTier.L1_GPU_LOCAL m.page_size = false
        then evict_l1_lru m else m
      let page2 := (get_page m0 virtual_addr).getD page
      let key := virtual_addr / m.page_size * m.page_size
      let p1 := { page2 with tier := MemoryTier.L1_GPU_LOCAL }
      let m1 := { m0 with page_table := ptSet m0.page_table key p1 }
      let m2 : CXLMemoryManager :=
        match page2.tier with
        | .L2_PREFETCH => { m1 with l2_pages := listErase m1.l2_pages virtual_addr }
        | .L3_CXL_POOL =>
          { m1 with l3_pages := listErase m1.l3_pages virtual_addr
                    stats := { m1.stats with migrations_l3_to_l1 := m1.stats.migrations_l3_to_l1 + 1 } }
        | .L1_GPU_LOCAL => m1
      let m3 := { m2 with l1_pages := m2.l1_pages ++ [virtual_addr] }
      (true, update_lru m3 virtual_addr)

/-- C3: a two-page allocation (8192 bytes, page size 4096) deallocated at
its base.  The base page-table entry is removed, but the entry for the
second page of the same allocation survives, so the page table still
holds an entry from the deallocated allocation.  Deallocation of an
unknown base is, as claimed, a no-op. -/
theorem C3_deallocate_leaves_sibling_page :
    let m0 : CXLMemoryManager := CXLMemoryManager.init 12 3 128 4096
    let r := allocate m0 8192 0 MemoryTier.L3_CXL_POOL
    let m2 := deallocate r.2 r.1
    r.1 = 0x100000000 ∧
    (r.2.page_table.lookup 0x100001000).isSome = true ∧
    m2.page_table.lookup 0x100000000 = none ∧
    (m2.page_table.lookup 0x100001000).isSome = true ∧
    deallocate m2 0xdead000 = m2 := by
  decide

/-- C5 counterexample: a page allocated in L3 and then touched once by
update_access_tracking lands at the MRU end of the L1 LRU list even
though its tier is L3, so the list does not contain exactly the L1 pages
and the MRU move is not restricted to L1 pages. -/
theorem C5_lru_holds_l3_page :
    let m0 := CXLMemoryManager.init 12 3 128 4096
    let r := allocate m0 4096 0 MemoryTier.L3_CXL_POOL
    let m2 := update_access_tracking r.2 r.1
    (get_page m2 r.1).map MemoryPage.tier = some MemoryTier.L3_CXL_POOL ∧
    m2.l1_lru_list = [r.1] := by
  decide

/-- C5 (amended): update_access_tracking moves any tracked page -
whatever its tier - to the MRU (back) end of the L1 LRU list, erasing any
earlier occurrence; on an untracked address it is a no-op.  Consequently
the LRU list may contain pages that are not in L1. -/
theorem C5_update_access_tracking_amended (m : CXLMemoryManager) (va : ℕ) :
    ((get_page m va).isSome = true →
      (update_access_tracking m va).l1_lru_list = listErase m.l1_lru_list va ++ [va]) ∧
    (get_page m va = none → update_access_tracking m va = m) := by
  constructor
  · intro h
    cases hg : get_page m va with
    | none => rw [hg] at h; simp at h
    | some page =>
      cases htier : page.tier <;>
        simp [update_access_tracking, hg, htier, update_lru]
  · intro h
    simp [update_access_tracking, h]

/-- Witness for C5 (amended) at a concrete one-page L3 allocation. -/
theorem C5_update_access_tracking_amended_witness :
    (update_access_tracking
        (allocate (CXLMemoryManager.init 12 3 128 4096) 4096 0 MemoryTier.L3_CXL_POOL).2
        0x100000000).l1_lru_list =
      listErase (allocate (CXLMemoryManager.init 12 3 128 4096) 4096 0
          MemoryTier.L3_CXL_POOL).2.l1_lru_list 0x100000000 ++ [0x100000000] :=
  (C5_update_access_tracking_amended
    (allocate (CXLMemoryManager.init 12 3 128 4096) 4096 0 MemoryTier.L3_CXL_POOL).2
    0x100000000).1 (by decide)

/-- C10 counterexample: two consecutive zero-byte allocations round to
zero pages, do not advance the virtual cursor, and return the same base
address, so the returned bases are not strictly increasing. -/
theorem C10_zero_size_allocations_share_base :
    let m0 := CXLMemoryManager.init 12 3 128 4096
    let r1 := allocate m0 0 0 MemoryTier.L3_CXL_POOL
    let r2 := allocate r1.2 0 0 MemoryTier.L3_CXL_POOL
    r1.1 = 0x100000000 ∧ r2.1 = 0x100000000 ∧ ¬ r1.1 < r2.1 := by
  decide

/-- C10 (amended): allocate never fails: it returns the current virtual
cursor and advances the cursor by the page-rounded size modulo 2^64.  An
L2- or L3-preferred allocation is placed in the preferred tier with no
capacity check (capacity is consulted only for an L1 preference, which
falls back to L3).  The returned base is nonzero whenever the cursor is,
and across allocations of positive rounded size without 64-bit wraparound
the bases are strictly increasing; a zero-byte allocation, however,
leaves the cursor in place. -/
theorem C10_allocate_total_amended (m : CXLMemoryManager) (size_bytes layer_id : ℕ)
    (tier : MemoryTier) :
    (allocate m size_bytes layer_id tier).1 = m.next_virtual_addr ∧
    (allocate m size_bytes layer_id tier).2.next_virtual_addr =
      (m.next_virtual_addr + required_bytes m.page_size size_bytes) % U64 ∧
    (tier = MemoryTier.L2_PREFETCH →
      (allocate m size_bytes layer_id tier).2.l2_pages = m.l2_pages ++ [m.next_virtual_addr]) ∧
    (tier = MemoryTier.L3_CXL_POOL →
      (allocate m size_bytes layer_id tier).2.l3_pages = m.l3_pages ++ [m.next_virtual_addr]) ∧
    (0 < m.next_virtual_addr → (allocate m size_bytes layer_id tier).1 ≠ 0) ∧
    (0 < required_bytes m.page_size size_bytes →
      m.next_virtual_addr + required_bytes m.page_size size_bytes < U64 →
      (allocate m size_bytes layer_id tier).1 <
        (allocate m size_bytes layer_id tier).2.next_virtual_addr) := by
  refine ⟨rfl, rfl, ?_, ?_, ?_, ?_⟩
  · intro ht
    subst ht
    simp [allocate]
  · intro ht
    subst ht
    simp [allocate]
  · intro h0
    show m.next_virtual_addr ≠ 0
    omega
  · intro hreq hlt
    show m.next_virtual_addr <
      (m.next_virtual_addr + required_bytes m.page_size size_bytes) % U64
    rw [Nat.mod_eq_of_lt hlt]
    omega

/-- Witness for C10 (amended): a one-page L3 allocation at the default
configuration strictly advances the cursor. -/
theorem C10_allocate_total_amended_witness :
    (allocate (CXLMemoryManager.init 12 3 128 4096) 4096 0 MemoryTier.L3_CXL_POOL).1 <
      (allocate (CXLMemoryManager.init 12 3 128 4096) 4096 0
        MemoryTier.L3_CXL_POOL).2.next_virtual_addr :=
  (C10_allocate_total_amended (CXLMemoryManager.init 12 3 128 4096) 4096 0
    MemoryTier.L3_CXL_POOL).2.2.2.2.2 (by decide) (by decide)

/-! ## Speculative prefetcher (src/src/prefetcher/speculative_prefetcher.cpp)

Only the adaptive-depth controller is needed for the claims.  The
accuracy window stores the doubles 1.0 / 0.0, modelled as exact
rationals; all quantities the source compares (sums of 0/1 values,
divided by 10, against 0.95 and 0.85) are reproduced exactly by rational
arithmetic. -/

structure SpeculativePrefetcher where
  accuracy_history : List ℚ := []
  adaptive_depth : ℕ
  accuracy_window_size : ℕ := 100
deriving Repr

/-- SpeculativePrefetcher::update_prediction_accuracy: append the
observation, trim the window, and - whenever at least 10 samples are
present - compare the mean of the last 10 against the thresholds,
adjusting the depth within [2, 8]. -/
def update_prediction_accuracy (p : SpeculativePrefetcher) (was_correct : Bool) :
    SpeculativePrefetcher :=
  let hist0 := p.accuracy_history ++ [if was_correct then (1 : ℚ) else 0]
  let hist := if hist0.length > p.accuracy_window_size then hist0.drop 1 else hist0
  if 10 ≤ hist.length then
    let recent_accuracy :=
      (hist.drop (hist.length - 10)).foldl (fun acc v => acc + v) 0 / 10
    if recent_accuracy > 95 / 100 ∧ p.adaptive_depth < 8 then
      { p with accuracy_history := hist, adaptive_depth := p.adaptive_depth + 1 }
    else if recent_accuracy < 85 / 100 ∧ p.adaptive_depth > 2 then
      { p with accuracy_history := hist, adaptive_depth := p.adaptive_depth - 1 }
    else { p with accuracy_history := hist }
  else { p with accuracy_history := hist }

lemma foldl_add_replicate_one (n : ℕ) (init : ℚ) :
    (List.replicate n (1 : ℚ)).foldl (fun acc v => acc + v) init = init + n := by
  induction n generalizing init with
  | zero => simp
  | succ k ih =>
    rw [List.replicate_succ, List.foldl_cons, ih]
    push_cast
    ring

lemma drop_replicate_q (j n : ℕ) :
    (List.replicate n (1 : ℚ)).drop j = List.replicate (n - j) 1 := by
  induction j generalizing n with
  | zero => simp
  | succ i ih =>
    cases n with
    | zero => simp
    | succ k =>
      rw [List.replicate_succ, List.drop_succ_cons, Nat.succ_sub_succ]
      exact ih k

/-- One true observation fed to a window of k consecutive 1.0 samples:
the window becomes k + 1 ones and the depth increments exactly when the
window has reached 10 samples and the depth is below 8 (the last-10 mean
is then exactly 1 > 0.95). -/
lemma update_true_replicate (k d : ℕ) (hk : k < 100) :
    update_prediction_accuracy ⟨List.replicate k 1, d, 100⟩ true =
      ⟨List.replicate (k + 1) 1, if 10 ≤ k + 1 ∧ d < 8 then d + 1 else d, 100⟩ := by
  unfold update_prediction_accuracy
  rw [show (if true then (1 : ℚ) else 0) = 1 from rfl, ← List.replicate_succ' k (1 : ℚ)]
  simp only [List.length_replicate]
  rw [if_neg (by omega : ¬ k + 1 > 100)]
  simp only [List.length_replicate]
  by_cases h10 : 10 ≤ k + 1
  · rw [if_pos h10, drop_replicate_q, show k + 1 - (k + 1 - 10) = 10 by omega,
      foldl_add_replicate_one]
    by_cases hd : d < 8
    · rw [if_pos ⟨by norm_num, hd⟩, if_pos ⟨h10, hd⟩]
    · rw [if_neg (fun h => hd h.2), if_neg (by norm_num), if_neg (fun h => hd h.2)]
  · rw [if_neg h10, if_neg (fun h => h10 h.1)]

/-- Twenty consecutive update_prediction_accuracy(_, true) calls starting
from depth 4 and an empty window: the depth ends at 8. -/
lemma prefetcher_twenty_true_depth :
    ((List.replicate 20 true).foldl update_prediction_accuracy
      { accuracy_history := [], adaptive_depth := 4 }).adaptive_depth = 8 := by
  simp only [List.replicate, List.foldl]
  rw [show ({ accuracy_history := [], adaptive_depth := 4 } : SpeculativePrefetcher) =
    ⟨List.replicate 0 1, 4, 100⟩ from rfl]
  rw [update_true_replicate 0 _ (by norm_num)]; simp only [Nat.reduceAdd]
  rw [update_true_replicate 1 _ (by norm_num)]; simp only [Nat.reduceAdd]
  rw [update_true_replicate 2 _ (by norm_num)]; simp only [Nat.reduceAdd]
  rw [update_true_replicate 3 _ (by norm_num)]; simp only [Nat.reduceAdd]
  rw [update_true_replicate 4 _ (by norm_num)]; simp only [Nat.reduceAdd]
  rw [update_true_replicate 5 _ (by norm_num)]; simp only [Nat.reduceAdd]
  rw [update_true_replicate 6 _ (by norm_num)]; simp only [Nat.reduceAdd]
  rw [update_true_replicate 7 _ (by norm_num)]; simp only [Nat.reduceAdd]
  rw [update_true_replicate 8 _ (by norm_num)]; simp only [Nat.reduceAdd]
  rw [update_true_replicate 9 _ (by norm_num)]; simp only [Nat.reduceAdd]
  rw [update_true_replicate 10 _ (by norm_num)]; simp only [Nat.reduceAdd]
  rw [update_true_replicate 11 _ (by norm_num)]; simp only [Nat.reduceAdd]
  rw [update_true_replicate 12 _ (by norm_num)]; simp only [Nat.reduceAdd]
  rw [update_true_replicate 13 _ (by norm_num)]; simp only [Nat.reduceAdd]
  rw [update_true_replicate 14 _ (by norm_num)]; simp only [Nat.reduceAdd]
  rw [update_true_replicate 15 _ (by norm_num)]; simp only [Nat.reduceAdd]
  rw [update_true_replicate 16 _ (by norm_num)]; simp only [Nat.reduceAdd]
  rw [update_true_replicate 17 _ (by norm_num)]; simp only [Nat.reduceAdd]
  rw [update_true_replicate 18 _ (by norm_num)]; simp only [Nat.reduceAdd]
  rw [update_true_replicate 19 _ (by norm_num)]
  decide

/-- C6 counterexample: after 20 update_prediction_accuracy(_, true) calls
from depth 4, the adaptive depth is not 5: the controller re-fires on
every call once the window holds 10 samples with mean above 0.95, so the
depth climbs to the cap. -/
theorem C6_twenty_true_calls_not_five :
    ((List.replicate 20 true).foldl update_prediction_accuracy
      { accuracy_history := [], adaptive_depth := 4 }).adaptive_depth ≠ 5 := by
  rw [prefetcher_twenty_true_depth]
  decide

/-- C6 (amended): after 20 update_prediction_accuracy(_, true) calls from
depth 4, the adaptive depth is 8: from the 10th call onward every call
sees a last-10 mean of 1.0 > 0.95 and increments the depth, so calls 10
through 13 raise it from 4 to the cap 8, where the depth < 8 guard stops
further increments. -/
theorem C6_twenty_true_calls_depth_eight :
    ((List.replicate 20 true).foldl update_prediction_accuracy
      { accuracy_history := [], adaptive_depth := 4 }).adaptive_depth = 8 :=
  prefetcher_twenty_true_depth

/-! ## Address translation unit (src/src/utils/address_translation.cpp)

Direct-mapped translation cache.  The 64-bit bit masks of the source are
rendered arithmetically: va & ~0xFFF clears the low 12 bits (va / 4096 *
4096), va & 0xFFF is va % 4096, and va & 0xFFFFFFFFFFFF is va % 2^48. -/

structure TLBEntry where
  virtual_page : ℕ := 0
  physical_page : ℕ := 0
  valid : Bool := false
deriving DecidableEq, Repr

structure AddressTranslationUnit where
  tlb_size : ℕ
  tlb : List TLBEntry
  hits : ℕ := 0
  misses : ℕ := 0
deriving DecidableEq, Repr

/-- The AddressTranslationUnit constructor: tlb_size invalid entries. -/
def AddressTranslationUnit.init (tlb_size : ℕ) : AddressTranslationUnit :=
  { tlb_size := tlb_size, tlb := List.replicate tlb_size {} }

/-- AddressTranslationUnit::page_walk: direct mapping with a fixed base,
0x4000000000 + (virtual_addr & 0xFFFFFFFFFFFF).  Note that it receives
the full, unaligned virtual address. -/
def page_walk (virtual_addr : ℕ) : ℕ :=
  (0x4000000000 + virtual_addr % 2 ^ 48) % U64

/-- AddressTranslationUnit::translate. -/
def translate (virtual_addr : ℕ) (atu : AddressTranslationUnit) :
    ℕ × AddressTranslationUnit :=
  let va := virtual_addr % U64
  let virtual_page := va / 4096 * 4096
  let page_offset := va % 4096
  let tlb_index := (virtual_page / 4096) % atu.tlb_size
  let entry := atu.tlb.getD tlb_index {}
  if entry.valid ∧ entry.virtual_page = virtual_page then
    ((entry.physical_page + page_offset) % U64, { atu with hits := atu.hits + 1 })
  else
    let physical_page := page_walk va
    let e2 : TLBEntry :=
      { virtual_page := virtual_page
        physical_page := physical_page / 4096 * 4096
        valid := true }
    ((physical_page + page_offset) % U64,
     { atu with misses := atu.misses + 1, tlb := atu.tlb.set tlb_index e2 })

/-- C8: translating virtual address 1 on an empty 16-entry translation
cache.  The installing miss returns 0x4000000002 (page_walk receives the
unaligned address, so the intra-page offset is added twice), while the
immediately following hit on the installed entry returns the installed
physical page plus the offset, 0x4000000001 - the two results differ, so
the miss does not return the installed physical page combined with the
offset. -/
theorem C8_translate_miss_hit_disagree :
    let atu0 : AddressTranslationUnit := AddressTranslationUnit.init 16
    let r1 := translate 1 atu0
    let r2 := translate 1 r1.2
    r1.1 = 0x4000000002 ∧
    (r1.2.tlb.getD 0 {}) =
      { virtual_page := 0, physical_page := 0x4000000000, valid := true } ∧
    r2.1 = 0x4000000001 ∧
    r2.1 = 0x4000000000 + 1 ∧
    r1.1 ≠ r2.1 := by
  decide

end CXLSpecKV
